import Mathlib

/-!
Verification of the field-completion transition tracker of the
baml-streaming-demo repository.

The Python sources are shallowly embedded:
- `FieldStatus`, `FieldState`, `RequiredFieldsChecker`, `check_required_ready`,
  `check_all_complete`, `extract_all_field_states`, `time_savings_percent` follow
  `baml_streaming_helpers.py`;
- `check_required_fields_complete`, `check_all_fields_complete`, `ftStep` follow
  `fast_transition_processor.py`;
- `UserProfileState`, `process_partial_response`, `process_final_response` follow
  `src/streaming_demo.py`.

Python dictionaries are modelled as association lists, `getattr` with a `None`
default as functions into `Option`, wall-clock times as exact rationals, and a
`ZeroDivisionError` as an explicit error constructor.
-/

namespace BamlStreaming

/-- Opaque Python field values (strings, ints, bools are the ones the demos use). -/
inductive Val
  | str (s : String)
  | int (n : Int)
  | bool (b : Bool)
deriving DecidableEq, Repr

/-- Python truthiness of the values that occur here (`if final.name:` etc.). -/
def Val.truthy : Val → Bool
  | .str s => !s.isEmpty
  | .int n => n != 0
  | .bool b => b

/-- `FieldStatus` enum of `baml_streaming_helpers.py`: NONE (field not present
yet) or COMPLETE (field has a value). -/
inductive FieldStatus
  | NONE
  | COMPLETE
deriving DecidableEq, Repr

/-- `FieldState` of `baml_streaming_helpers.py`: name, value, status, timestamp. -/
structure FieldState where
  name : String
  value : Option Val
  status : FieldStatus
  timestamp : ℚ
deriving DecidableEq, Repr

/-- A snapshot field map (`Dict[str, FieldState]`), as an association list. -/
abbrev FieldMap := List (String × FieldState)

/-- Python `dict.get(k)`: first binding of the key, if any. -/
def fmGet (m : FieldMap) (k : String) : Option FieldState :=
  (m.find? fun p => p.1 == k).map fun p => p.2

/-- The default `FieldState(name=f, value=None, status=FieldStatus.NONE, timestamp=0)`
used by `check_required_ready` when a required field is missing from the map. -/
def defaultAbsent (field_name : String) : FieldState :=
  { name := field_name, value := none, status := .NONE, timestamp := 0 }

/-- Status a map assigns to a field, with the absent default of the source. -/
def statusOf (m : FieldMap) (f : String) : FieldStatus :=
  ((fmGet m f).getD (defaultAbsent f)).status

/-- `RequiredFieldsChecker.__init__`: required field list plus the two
"already triggered" flags (both start false). -/
structure RequiredFieldsChecker where
  required_fields : List String
  required_ready_triggered : Bool
  all_complete_triggered : Bool
deriving DecidableEq, Repr

/-- Construction: `RequiredFieldsChecker(required_fields)`. -/
def RequiredFieldsChecker.mk0 (req : List String) : RequiredFieldsChecker :=
  ⟨req, false, false⟩

/-- `RequiredFieldsChecker.check_required_ready`: returns False once triggered;
otherwise fires (and latches) iff every required field's status is COMPLETE,
with a missing field defaulting to a NONE-status state. -/
def check_required_ready (c : RequiredFieldsChecker) (field_states : FieldMap) :
    Bool × RequiredFieldsChecker :=
  if c.required_ready_triggered then (false, c)
  else
    let required_ready := c.required_fields.all fun field_name =>
      ((fmGet field_states field_name).getD (defaultAbsent field_name)).status == .COMPLETE
    if required_ready then (true, { c with required_ready_triggered := true })
    else (false, c)

/-- `RequiredFieldsChecker.check_all_complete`: returns False once triggered;
otherwise fires (and latches) iff every state in the map is COMPLETE. -/
def check_all_complete (c : RequiredFieldsChecker) (field_states : FieldMap) :
    Bool × RequiredFieldsChecker :=
  if c.all_complete_triggered then (false, c)
  else
    let all_complete := field_states.all fun p => p.2.status == .COMPLETE
    if all_complete then (true, { c with all_complete_triggered := true })
    else (false, c)

/-- `RequiredFieldsChecker.reset`: clears both triggered flags. -/
def RequiredFieldsChecker.reset (c : RequiredFieldsChecker) : RequiredFieldsChecker :=
  { c with required_ready_triggered := false, all_complete_triggered := false }

/-- Iterate one of the two check methods over a sequence of snapshot maps,
collecting the boolean it returned on each call. -/
def runCheck (f : RequiredFieldsChecker → FieldMap → Bool × RequiredFieldsChecker) :
    RequiredFieldsChecker → List FieldMap → List Bool × RequiredFieldsChecker
  | c, [] => ([], c)
  | c, fs :: rest =>
    let step := f c fs
    let r := runCheck f step.2 rest
    (step.1 :: r.1, r.2)

/- Generic latching lemmas: both check methods stall (return false, unchanged
state) once their flag is set, set their flag exactly when they return true,
and leave the state unchanged when they return false. -/

lemma runCheck_count_zero
    (f : RequiredFieldsChecker → FieldMap → Bool × RequiredFieldsChecker)
    (g : RequiredFieldsChecker → Bool)
    (hstall : ∀ c fs, g c = true → f c fs = (false, c))
    (c : RequiredFieldsChecker) (hc : g c = true) (snaps : List FieldMap) :
    (runCheck f c snaps).1.count true = 0 := by
  induction snaps with
  | nil => simp [runCheck]
  | cons fs rest ih =>
    simp only [runCheck, hstall c fs hc]
    simpa using ih

lemma runCheck_count_le_one
    (f : RequiredFieldsChecker → FieldMap → Bool × RequiredFieldsChecker)
    (g : RequiredFieldsChecker → Bool)
    (hstall : ∀ c fs, g c = true → f c fs = (false, c))
    (hset : ∀ c fs, (f c fs).1 = true → g (f c fs).2 = true)
    (hkeep : ∀ c fs, (f c fs).1 = false → (f c fs).2 = c)
    (c : RequiredFieldsChecker) (snaps : List FieldMap) :
    (runCheck f c snaps).1.count true ≤ 1 := by
  induction snaps generalizing c with
  | nil => simp [runCheck]
  | cons fs rest ih =>
    simp only [runCheck]
    rcases hb : (f c fs).1 with _ | _
    · have hst : (f c fs).2 = c := hkeep c fs hb
      simpa [hst] using ih c
    · have hz : (runCheck f (f c fs).2 rest).1.count true = 0 :=
        runCheck_count_zero f g hstall _ (hset c fs hb) rest
      simp [hz]

lemma check_required_ready_stall (c : RequiredFieldsChecker) (fs : FieldMap)
    (h : c.required_ready_triggered = true) :
    check_required_ready c fs = (false, c) := by
  simp [check_required_ready, h]

lemma check_required_ready_set (c : RequiredFieldsChecker) (fs : FieldMap)
    (h : (check_required_ready c fs).1 = true) :
    (check_required_ready c fs).2.required_ready_triggered = true := by
  by_cases ht : c.required_ready_triggered
  · simp [check_required_ready, ht] at h
  · by_cases hr : (c.required_fields.all fun field_name =>
        ((fmGet fs field_name).getD (defaultAbsent field_name)).status == .COMPLETE)
    · simp [check_required_ready, ht, hr]
    · simp [check_required_ready, ht, hr] at h

lemma check_required_ready_keep (c : RequiredFieldsChecker) (fs : FieldMap)
    (h : (check_required_ready c fs).1 = false) :
    (check_required_ready c fs).2 = c := by
  by_cases ht : c.required_ready_triggered
  · simp [check_required_ready, ht]
  · by_cases hr : (c.required_fields.all fun field_name =>
        ((fmGet fs field_name).getD (defaultAbsent field_name)).status == .COMPLETE)
    · simp [check_required_ready, ht, hr] at h
    · simp [check_required_ready, ht, hr]

lemma check_all_complete_stall (c : RequiredFieldsChecker) (fs : FieldMap)
    (h : c.all_complete_triggered = true) :
    check_all_complete c fs = (false, c) := by
  simp [check_all_complete, h]

lemma check_all_complete_set (c : RequiredFieldsChecker) (fs : FieldMap)
    (h : (check_all_complete c fs).1 = true) :
    (check_all_complete c fs).2.all_complete_triggered = true := by
  by_cases ht : c.all_complete_triggered
  · simp [check_all_complete, ht] at h
  · by_cases ha : (fs.all fun p => p.2.status == FieldStatus.COMPLETE)
    · simp [check_all_complete, ht, ha]
    · simp [check_all_complete, ht, ha] at h

lemma check_all_complete_keep (c : RequiredFieldsChecker) (fs : FieldMap)
    (h : (check_all_complete c fs).1 = false) :
    (check_all_complete c fs).2 = c := by
  by_cases ht : c.all_complete_triggered
  · simp [check_all_complete, ht]
  · by_cases ha : (fs.all fun p => p.2.status == FieldStatus.COMPLETE)
    · simp [check_all_complete, ht, ha] at h
    · simp [check_all_complete, ht, ha]

/-- C1: over any sequence of ingested snapshot maps, `check_required_ready` and
`check_all_complete` each return true at most once; once one of them has
returned true every subsequent call returns false; and `reset` clears both
latches so the conditions may fire again afterwards. -/
theorem C1_at_most_once_firing (c : RequiredFieldsChecker) (fs0 : FieldMap)
    (snaps : List FieldMap) :
    (runCheck check_required_ready c snaps).1.count true ≤ 1 ∧
    (runCheck check_all_complete c snaps).1.count true ≤ 1 ∧
    ((check_required_ready c fs0).1 = true →
      (runCheck check_required_ready (check_required_ready c fs0).2 snaps).1.count true = 0) ∧
    ((check_all_complete c fs0).1 = true →
      (runCheck check_all_complete (check_all_complete c fs0).2 snaps).1.count true = 0) ∧
    (RequiredFieldsChecker.reset c).required_ready_triggered = false ∧
    (RequiredFieldsChecker.reset c).all_complete_triggered = false := by
  refine ⟨?_, ?_, ?_, ?_, rfl, rfl⟩
  · exact runCheck_count_le_one check_required_ready (·.required_ready_triggered)
      check_required_ready_stall check_required_ready_set check_required_ready_keep c snaps
  · exact runCheck_count_le_one check_all_complete (·.all_complete_triggered)
      check_all_complete_stall check_all_complete_set check_all_complete_keep c snaps
  · intro h
    exact runCheck_count_zero check_required_ready (·.required_ready_triggered)
      check_required_ready_stall _ (check_required_ready_set c fs0 h) snaps
  · intro h
    exact runCheck_count_zero check_all_complete (·.all_complete_triggered)
      check_all_complete_stall _ (check_all_complete_set c fs0 h) snaps

/-- Witness for C1 at a concrete checker, snapshot and stream. -/
theorem C1_at_most_once_firing_witness :
    (check_required_ready (RequiredFieldsChecker.mk0 ["name"])
      [("name", { name := "name", value := some (.str "A"), status := .COMPLETE, timestamp := 1 })]).1
      = true ∧
    (runCheck check_required_ready
      (check_required_ready (RequiredFieldsChecker.mk0 ["name"])
        [("name", { name := "name", value := some (.str "A"), status := .COMPLETE, timestamp := 1 })]).2
      [[("name", { name := "name", value := some (.str "A"), status := .COMPLETE, timestamp := 2 })],
       []]).1.count true = 0 := by
  refine ⟨by decide, ?_⟩
  exact (C1_at_most_once_firing (RequiredFieldsChecker.mk0 ["name"])
    [("name", { name := "name", value := some (.str "A"), status := .COMPLETE, timestamp := 1 })]
    [[("name", { name := "name", value := some (.str "A"), status := .COMPLETE, timestamp := 2 })],
     []]).2.2.1 (by decide)

/-- When the not-yet-triggered branch is taken, `check_required_ready` returns
exactly the `all(...)` of the source. -/
lemma check_required_ready_fst (c : RequiredFieldsChecker) (m : FieldMap)
    (h : c.required_ready_triggered = false) :
    (check_required_ready c m).1 = (c.required_fields.all fun field_name =>
      ((fmGet m field_name).getD (defaultAbsent field_name)).status == .COMPLETE) := by
  by_cases hr : (c.required_fields.all fun field_name =>
      ((fmGet m field_name).getD (defaultAbsent field_name)).status == .COMPLETE)
  · simp [check_required_ready, h, hr]
  · simp [check_required_ready, h, hr]

/-- C5: from a not-yet-triggered state, the required-fields condition holds iff
every named field's status in the map is COMPLETE; a required field missing
from the map entirely counts as not complete (the lookup falls back to a
NONE-status default, and the total function raises nothing). -/
theorem C5_required_condition_semantics (c : RequiredFieldsChecker) (m : FieldMap)
    (h : c.required_ready_triggered = false) :
    ((check_required_ready c m).1 = true ↔
      ∀ f ∈ c.required_fields, statusOf m f = .COMPLETE) ∧
    ((∃ f ∈ c.required_fields, fmGet m f = none) → (check_required_ready c m).1 = false) := by
  have hfst := check_required_ready_fst c m h
  have hiff : (check_required_ready c m).1 = true ↔
      ∀ f ∈ c.required_fields, statusOf m f = .COMPLETE := by
    rw [hfst]
    simp [List.all_eq_true, statusOf]
  refine ⟨hiff, ?_⟩
  rintro ⟨f, hf, hnone⟩
  cases hb : (check_required_ready c m).1 with
  | false => rfl
  | true =>
    have := (hiff.mp hb) f hf
    rw [statusOf, hnone] at this
    simp [defaultAbsent] at this

/-- Witness for C5 at a concrete checker and map. -/
theorem C5_required_condition_semantics_witness :
    (check_required_ready (RequiredFieldsChecker.mk0 ["a", "b"])
      [("a", { name := "a", value := some (.int 1), status := .COMPLETE, timestamp := 0 }),
       ("b", { name := "b", value := some (.int 2), status := .COMPLETE, timestamp := 0 })]).1
      = true :=
  (C5_required_condition_semantics (RequiredFieldsChecker.mk0 ["a", "b"])
    [("a", { name := "a", value := some (.int 1), status := .COMPLETE, timestamp := 0 }),
     ("b", { name := "b", value := some (.int 2), status := .COMPLETE, timestamp := 0 })]
    rfl).1.mpr (by decide)

/-- C8: with required fields `["a", "b"]`, the outcome of `check_required_ready`
(and the resulting latch) depends only on the statuses the two maps assign to
"a" and "b" — two maps that agree there give identical results no matter how
they differ on every other field. -/
theorem C8_depends_only_on_required_fields (c : RequiredFieldsChecker) (m1 m2 : FieldMap)
    (hreq : c.required_fields = ["a", "b"])
    (ha : statusOf m1 "a" = statusOf m2 "a") (hb : statusOf m1 "b" = statusOf m2 "b") :
    (check_required_ready c m1).1 = (check_required_ready c m2).1 ∧
    (check_required_ready c m1).2.required_ready_triggered =
      (check_required_ready c m2).2.required_ready_triggered := by
  by_cases ht : c.required_ready_triggered
  · simp [check_required_ready, ht]
  · have ht' : c.required_ready_triggered = false := by simpa using ht
    simp only [statusOf] at ha hb
    have hsame : (check_required_ready c m1).1 = (check_required_ready c m2).1 := by
      rw [check_required_ready_fst c m1 ht', check_required_ready_fst c m2 ht', hreq]
      simp only [List.all_cons, List.all_nil, ha, hb]
    refine ⟨hsame, ?_⟩
    cases hb1 : (check_required_ready c m1).1 with
    | false =>
      rw [check_required_ready_keep c m1 hb1,
        check_required_ready_keep c m2 (hsame.symm.trans hb1)]
    | true =>
      rw [check_required_ready_set c m1 hb1,
        check_required_ready_set c m2 (hsame.symm.trans hb1)]

/-- Witness for C8: the second map lacks the extra field "z" of the first. -/
theorem C8_depends_only_on_required_fields_witness :
    (check_required_ready (RequiredFieldsChecker.mk0 ["a", "b"])
      [("a", { name := "a", value := some (.int 1), status := .COMPLETE, timestamp := 0 }),
       ("b", { name := "b", value := some (.int 2), status := .COMPLETE, timestamp := 0 }),
       ("z", { name := "z", value := none, status := .NONE, timestamp := 0 })]).1 =
    (check_required_ready (RequiredFieldsChecker.mk0 ["a", "b"])
      [("a", { name := "a", value := some (.int 1), status := .COMPLETE, timestamp := 0 }),
       ("b", { name := "b", value := some (.int 2), status := .COMPLETE, timestamp := 0 })]).1 :=
  (C8_depends_only_on_required_fields (RequiredFieldsChecker.mk0 ["a", "b"])
    [("a", { name := "a", value := some (.int 1), status := .COMPLETE, timestamp := 0 }),
     ("b", { name := "b", value := some (.int 2), status := .COMPLETE, timestamp := 0 }),
     ("z", { name := "z", value := none, status := .NONE, timestamp := 0 })]
    [("a", { name := "a", value := some (.int 1), status := .COMPLETE, timestamp := 0 }),
     ("b", { name := "b", value := some (.int 2), status := .COMPLETE, timestamp := 0 })]
    rfl (by decide) (by decide)).1

/-- `SchemaIntrospector.get_required_fields`: each model field paired with the
boolean `json_schema_extra.get("required_for_execution", False)`; the result
keeps the names whose flag is true. -/
def get_required_fields (model_fields : List (String × Bool)) : List String :=
  (model_fields.filter fun p => p.2).map fun p => p.1

/-- C9: when no model field carries `required_for_execution`, the required list
is empty and `check_required_ready` returns true on the very first call from an
untriggered state (construction or reset), whatever the snapshot map holds. -/
theorem C9_empty_required_fires_immediately (model_fields : List (String × Bool))
    (hnone : ∀ p ∈ model_fields, (p : String × Bool).2 = false) (m : FieldMap)
    (c : RequiredFieldsChecker) (hc : c.required_fields = get_required_fields model_fields)
    (ht : c.required_ready_triggered = false) :
    get_required_fields model_fields = [] ∧ (check_required_ready c m).1 = true := by
  have hfil : model_fields.filter (fun p => p.2) = [] := by
    rw [List.filter_eq_nil_iff]
    intro p hp
    simp [hnone p hp]
  have hempty : get_required_fields model_fields = [] := by
    simp [get_required_fields, hfil]
  refine ⟨hempty, ?_⟩
  rw [check_required_ready_fst c m ht, hc, hempty]
  rfl

/-- Witness for C9: a two-field model with no required-for-execution marks. -/
theorem C9_empty_required_fires_immediately_witness :
    get_required_fields [("name", false), ("bio", false)] = [] ∧
    (check_required_ready
      (RequiredFieldsChecker.mk0 (get_required_fields [("name", false), ("bio", false)]))
      []).1 = true :=
  C9_empty_required_fires_immediately [("name", false), ("bio", false)] (by decide) []
    (RequiredFieldsChecker.mk0 (get_required_fields [("name", false), ("bio", false)]))
    rfl rfl

/-- `PerformanceSummary` of `baml_streaming_helpers.py`, times as rationals. -/
structure PerformanceSummary where
  total_time : ℚ
  partial_count : ℕ
  events : List (String × ℚ)
  required_ready_time : Option ℚ
deriving DecidableEq, Repr

/-- Result of a Python property returning `Optional[float]`: either a value or
a raised `ZeroDivisionError`. -/
inductive PyOptFloat
  | ok (v : Option ℚ)
  | zeroDivisionError
deriving DecidableEq, Repr

/-- `PerformanceSummary.time_savings_percent`: None when `required_ready_time`
is None; otherwise `(total_time - required_ready_time) / total_time * 100`,
where Python float division raises `ZeroDivisionError` on a zero divisor. -/
def time_savings_percent (s : PerformanceSummary) : PyOptFloat :=
  match s.required_ready_time with
  | none => .ok none
  | some r =>
    if s.total_time = 0 then .zeroDivisionError
    else .ok (some ((s.total_time - r) / s.total_time * 100))

/-- C4: with a recorded trigger time r and positive total t the savings equal
(t - r) / t * 100; the value is None exactly when no required trigger time was
recorded; and t = 10, r = 4 gives 60. -/
theorem C4_time_savings_formula (t r : ℚ) (n : ℕ) (evs : List (String × ℚ)) (ht : 0 < t) :
    time_savings_percent ⟨t, n, evs, some r⟩ = .ok (some ((t - r) / t * 100)) ∧
    time_savings_percent ⟨t, n, evs, none⟩ = .ok none ∧
    time_savings_percent ⟨10, n, evs, some 4⟩ = .ok (some 60) := by
  refine ⟨?_, rfl, ?_⟩
  · simp [time_savings_percent, ht.ne']
  · norm_num [time_savings_percent]

/-- Witness for C4: total 10.0, trigger 4.0, savings 60.0. -/
theorem C4_time_savings_formula_witness :
    time_savings_percent ⟨10, 7, [], some 4⟩ = .ok (some 60) :=
  (C4_time_savings_formula 10 4 7 [] (by norm_num)).2.2

/-- C10: `time_savings_percent` has no zero guard: with no recorded trigger it
returns None without dividing; with a recorded trigger and total_time > 0 the
zero-division branch is unreachable; and total_time = 0 with a recorded trigger
raises `ZeroDivisionError` instead of returning a value. -/
theorem C10_division_by_zero_guard (s : PerformanceSummary) :
    (s.required_ready_time = none → time_savings_percent s = .ok none) ∧
    (0 < s.total_time → time_savings_percent s ≠ .zeroDivisionError) ∧
    (s.total_time = 0 → ∀ r, s.required_ready_time = some r →
      time_savings_percent s = .zeroDivisionError) := by
  refine ⟨?_, ?_, ?_⟩
  · intro h; simp [time_savings_percent, h]
  · intro h
    cases hr : s.required_ready_time with
    | none => simp [time_savings_percent, hr]
    | some r => simp [time_savings_percent, hr, h.ne']
  · intro h r hr
    simp [time_savings_percent, hr, h]

/-- Witness for C10: total_time 0 with a recorded trigger raises. -/
theorem C10_division_by_zero_guard_witness :
    time_savings_percent ⟨0, 0, [], some 1⟩ = .zeroDivisionError :=
  (C10_division_by_zero_guard ⟨0, 0, [], some 1⟩).2.2 rfl 1 rfl

/-- `BAMLStreamProcessor._extract_all_field_states`: one `FieldState` per
configured field; `getattr(partial, field_name, None)` is the snapshot
function, a missing or None field gets status NONE, a present one COMPLETE. -/
def extract_all_field_states (all_fields : List String) (snap : String → Option Val)
    (current_time : ℚ) : FieldMap :=
  all_fields.map fun field_name =>
    match snap field_name with
    | none => (field_name,
        { name := field_name, value := none, status := .NONE, timestamp := current_time })
    | some v => (field_name,
        { name := field_name, value := some v, status := .COMPLETE, timestamp := current_time })

/-- The state `_extract_all_field_states` builds for one field. -/
def extractedState (snap : String → Option Val) (current_time : ℚ) (f : String) : FieldState :=
  match snap f with
  | none => { name := f, value := none, status := .NONE, timestamp := current_time }
  | some v => { name := f, value := some v, status := .COMPLETE, timestamp := current_time }

lemma extract_eq_map (all_fields : List String) (snap : String → Option Val) (t : ℚ) :
    extract_all_field_states all_fields snap t =
      all_fields.map fun f => (f, extractedState snap t f) := by
  unfold extract_all_field_states
  refine List.map_congr_left fun f _ => ?_
  unfold extractedState
  cases snap f <;> rfl

lemma extractedState_status (snap : String → Option Val) (t : ℚ) (f : String) :
    ((extractedState snap t f).status == FieldStatus.COMPLETE) = (snap f).isSome := by
  cases h : snap f <;> simp [extractedState, h]

lemma fmGet_extract (all_fields : List String) (snap : String → Option Val) (t : ℚ)
    (f : String) :
    fmGet (extract_all_field_states all_fields snap t) f =
      if f ∈ all_fields then some (extractedState snap t f) else none := by
  rw [extract_eq_map]
  induction all_fields with
  | nil => simp [fmGet]
  | cons a rest ih =>
    by_cases hf : a = f
    · subst hf
      rw [fmGet, List.map_cons, List.find?_cons_of_pos _ (by simp)]
      simp
    · rw [fmGet, List.map_cons, List.find?_cons_of_neg _ (by simpa using hf)]
      rw [fmGet] at ih
      rw [ih]
      have hfa : ¬f = a := fun hh => hf hh.symm
      simp [List.mem_cons, hfa]

lemma check_all_complete_fst (c : RequiredFieldsChecker) (m : FieldMap)
    (h : c.all_complete_triggered = false) :
    (check_all_complete c m).1 = (m.all fun p => p.2.status == .COMPLETE) := by
  by_cases ha : (m.all fun p => p.2.status == .COMPLETE)
  · simp [check_all_complete, h, ha]
  · simp [check_all_complete, h, ha]

/-- C6: the map built from a snapshot has exactly the configured fields as keys
(one entry each when the configured list has no duplicates), a field the
snapshot lacks gets status NONE, and `check_all_complete` on such a map is
exactly "every configured field is present", quantifying over the fixed
configured set rather than the fields present in the snapshot. -/
theorem C6_one_entry_per_configured_field (all_fields : List String)
    (snap : String → Option Val) (t : ℚ) (hnd : all_fields.Nodup) :
    ((extract_all_field_states all_fields snap t).map Prod.fst = all_fields ∧
      ((extract_all_field_states all_fields snap t).map Prod.fst).Nodup) ∧
    (∀ f ∈ all_fields,
      fmGet (extract_all_field_states all_fields snap t) f = some (extractedState snap t f) ∧
      (snap f = none → (extractedState snap t f).status = .NONE)) ∧
    (∀ c : RequiredFieldsChecker, c.all_complete_triggered = false →
      ((check_all_complete c (extract_all_field_states all_fields snap t)).1 = true ↔
        ∀ f ∈ all_fields, (snap f).isSome = true)) := by
  have hkeys : (extract_all_field_states all_fields snap t).map Prod.fst = all_fields := by
    rw [extract_eq_map, List.map_map]
    simp [Function.comp_def]
  refine ⟨⟨hkeys, by rw [hkeys]; exact hnd⟩, ?_, ?_⟩
  · intro f hf
    refine ⟨by rw [fmGet_extract]; simp [hf], ?_⟩
    intro hn
    simp [extractedState, hn]
  · intro c hc
    rw [check_all_complete_fst c _ hc, extract_eq_map]
    simp only [List.all_eq_true, List.mem_map, forall_exists_index, and_imp]
    constructor
    · intro h f hf
      have := h (f, extractedState snap t f) f hf rfl
      rwa [extractedState_status] at this
    · rintro h p f hf rfl
      rw [extractedState_status]
      exact h f hf

/-- Witness for C6 at a concrete field list and snapshot lacking "email". -/
theorem C6_one_entry_per_configured_field_witness :
    (extract_all_field_states ["name", "email"]
        (fun f => if f == "name" then some (.str "A") else none) 3).map Prod.fst
      = ["name", "email"] :=
  (C6_one_entry_per_configured_field ["name", "email"]
    (fun f => if f == "name" then some (.str "A") else none) 3 (by decide)).1.1

/-- The two conditions a snapshot can newly trigger, in the order
`BAMLStreamProcessor.process_stream` evaluates them. -/
inductive Cond
  | required_ready
  | all_complete
deriving DecidableEq, Repr

/-- The per-snapshot condition sequencing of `BAMLStreamProcessor.process_stream`
(lines 300-314): `check_required_ready` first, then `check_all_complete` on the
updated checker, both against the same snapshot's field states. -/
def ingest (c : RequiredFieldsChecker) (field_states : FieldMap) :
    List Cond × RequiredFieldsChecker :=
  let rr := check_required_ready c field_states
  let ac := check_all_complete rr.2 field_states
  ((if rr.1 then [Cond.required_ready] else []) ++
    (if ac.1 then [Cond.all_complete] else []), ac.2)

lemma check_required_ready_preserves_all_flag (c : RequiredFieldsChecker) (m : FieldMap) :
    (check_required_ready c m).2.all_complete_triggered = c.all_complete_triggered := by
  by_cases ht : c.required_ready_triggered
  · simp [check_required_ready, ht]
  · by_cases hr : (c.required_fields.all fun field_name =>
        ((fmGet m field_name).getD (defaultAbsent field_name)).status == .COMPLETE)
    · simp [check_required_ready, ht, hr]
    · simp [check_required_ready, ht, hr]

/-- C7: a single snapshot that satisfies both not-yet-triggered conditions has
both reported from that same ingest call, required-ready before all-complete;
neither is deferred. -/
theorem C7_simultaneous_conditions_same_call (c : RequiredFieldsChecker) (m : FieldMap)
    (h1 : c.required_ready_triggered = false) (h2 : c.all_complete_triggered = false)
    (hreq : ∀ f ∈ c.required_fields, statusOf m f = .COMPLETE)
    (hall : ∀ p ∈ m, (p : String × FieldState).2.status = .COMPLETE) :
    (ingest c m).1 = [Cond.required_ready, Cond.all_complete] := by
  have hr : (check_required_ready c m).1 = true := by
    rw [check_required_ready_fst c m h1]
    simp only [List.all_eq_true, beq_iff_eq]
    exact fun f hf => hreq f hf
  have hstate : (check_required_ready c m).2.all_complete_triggered = false :=
    (check_required_ready_preserves_all_flag c m).trans h2
  have hac : (check_all_complete (check_required_ready c m).2 m).1 = true := by
    rw [check_all_complete_fst _ m hstate]
    simp only [List.all_eq_true, beq_iff_eq]
    exact fun p hp => hall p hp
  simp [ingest, hr, hac]

/-- Witness for C7: one snapshot satisfying both conditions at once. -/
theorem C7_simultaneous_conditions_same_call_witness :
    (ingest (RequiredFieldsChecker.mk0 ["name"])
      [("name", { name := "name", value := some (.str "A"), status := .COMPLETE, timestamp := 1 })]).1
      = [Cond.required_ready, Cond.all_complete] :=
  C7_simultaneous_conditions_same_call (RequiredFieldsChecker.mk0 ["name"])
    [("name", { name := "name", value := some (.str "A"), status := .COMPLETE, timestamp := 1 })]
    rfl rfl (by decide) (by decide)

/-- An asynchronous condition handler as `process_stream` awaits it: it gets
the field states and the elapsed "time" (modelled by the snapshot index) and
either completes or raises. -/
abbrev Handler := FieldMap → ℕ → Except String Unit

/-- Mutable loop state of `BAMLStreamProcessor.process_stream`: the checker,
the partial counter and the timer events for the two conditions (the snapshot
index stands in for elapsed wall-clock time). -/
structure LoopState where
  checker : RequiredFieldsChecker
  partialCount : ℕ
  required_ready_at : Option ℕ
  all_complete_at : Option ℕ
deriving Repr

/-- One iteration of the `async for` loop of `BAMLStreamProcessor.process_stream`
(lines 292-317): bump the counter, extract the field states, run
`check_required_ready` then `check_all_complete`, and after each condition that
fired AWAIT the corresponding handler — a handler exception propagates (the
`except` clause prints and re-raises), aborting the loop. -/
def bamlStep (all_fields : List String) (on_required_ready on_all_complete : Handler)
    (st : LoopState) (snap : String → Option Val) : Except String LoopState :=
  let cnt := st.partialCount + 1
  let field_states := extract_all_field_states all_fields snap (cnt : ℚ)
  let rr := check_required_ready st.checker field_states
  let required_at := if rr.1 then some cnt else st.required_ready_at
  match (if rr.1 then on_required_ready field_states cnt else Except.ok ()) with
  | Except.error e => Except.error e
  | Except.ok _ =>
    let ac := check_all_complete rr.2 field_states
    let all_at := if ac.1 then some cnt else st.all_complete_at
    match (if ac.1 then on_all_complete field_states cnt else Except.ok ()) with
    | Except.error e => Except.error e
    | Except.ok _ => Except.ok ⟨ac.2, cnt, required_at, all_at⟩

/-- Sequential consumption of the snapshot stream; an error carries how many
snapshots had been consumed when the loop aborted. -/
def bamlConsume (all_fields : List String) (on_required_ready on_all_complete : Handler) :
    LoopState → List (String → Option Val) → Except (String × ℕ) LoopState
  | st, [] => Except.ok st
  | st, snap :: rest =>
    match bamlStep all_fields on_required_ready on_all_complete st snap with
    | Except.error e => Except.error (e, st.partialCount + 1)
    | Except.ok st2 => bamlConsume all_fields on_required_ready on_all_complete st2 rest

/-- The observable outcome of `process_stream`, with times as snapshot indices. -/
structure BamlSummary where
  partial_count : ℕ
  required_ready_at : Option ℕ
  all_complete_at : Option ℕ
deriving DecidableEq, Repr

/-- `BAMLStreamProcessor.process_stream` (lines 271-342): reset, consume the
stream, then await `stream.get_final_response()` — the terminal record is only
used to ensure the stream is consumed, no condition is evaluated against it —
and build the summary from the timer events and the partial counter. -/
def bamlProcessStream (model_fields : List (String × Bool))
    (on_required_ready on_all_complete : Handler)
    (snaps : List (String → Option Val)) (_terminalRecord : String → Option Val) :
    Except (String × ℕ) BamlSummary :=
  let all_fields := model_fields.map fun p => p.1
  let required_fields := get_required_fields model_fields
  let c0 := (RequiredFieldsChecker.mk0 required_fields).reset
  match bamlConsume all_fields on_required_ready on_all_complete ⟨c0, 0, none, none⟩ snaps with
  | Except.error e => Except.error e
  | Except.ok st =>
    Except.ok { partial_count := st.partialCount, required_ready_at := st.required_ready_at,
                all_complete_at := st.all_complete_at }

/-- C2 counterexample: with required field "name", a single streamed partial
lacking it, and a terminal record carrying it, `process_stream` ends with no
required-ready trigger even though a fresh evaluation of the condition against
the terminal record would succeed — finalization is NOT an implicit last
ingest in `BAMLStreamProcessor`. -/
theorem C2_finalize_counterexample :
    bamlProcessStream [("name", true)] (fun _ _ => Except.ok ()) (fun _ _ => Except.ok ())
        [fun _ => none] (fun f => if f == "name" then some (.str "Alice") else none)
      = Except.ok { partial_count := 1, required_ready_at := none, all_complete_at := none } ∧
    (check_required_ready (RequiredFieldsChecker.mk0 (get_required_fields [("name", true)]))
        (extract_all_field_states ["name"]
          (fun f => if f == "name" then some (.str "Alice") else none) 2)).1 = true :=
  ⟨rfl, rfl⟩

/-- C3 counterexample: `process_stream` awaits its handlers inline, so a
raising handler aborts stream consumption: with two snapshots whose first
satisfies the required condition and an `on_required_ready` that raises, the
run errors out having consumed only the first of the two snapshots — the
second is never ingested. -/
theorem C3_fire_and_forget_counterexample :
    bamlProcessStream [("name", true)]
        (fun _ _ => Except.error "boom") (fun _ _ => Except.ok ())
        [fun f => if f == "name" then some (.str "A") else none, fun _ => none]
        (fun _ => none)
      = Except.error ("boom", 1) :=
  rfl

/-- A `StreamState`-like value of `src/streaming_demo.py`: a wrapped value
with a state string, or a plain value. -/
inductive SDVal
  | withState (state : String) (value : Option Val)
  | plain (v : Val)
deriving DecidableEq, Repr

/-- A streamed update of `streaming_demo.py` (`StreamingUserProfile`):
name/email as optional plain strings, bio/age possibly StreamState-wrapped;
`none` models the attribute being `None`. -/
structure SDUpdate where
  name : Option String
  email : Option String
  bio : Option SDVal
  age : Option SDVal
deriving DecidableEq, Repr

/-- The final `UserProfile` record passed to `_process_final_response`. -/
structure SDFinal where
  name : Option Val
  email : Option Val
  bio : Option Val
  age : Option Val
deriving DecidableEq, Repr

/-- `UserProfileState` of `streaming_demo.py`: field values, per-field
completion flags, and how many ready-for-next-job callbacks `update_field` has
scheduled (one `asyncio.create_task` per update that finds the required fields
complete). -/
structure UserProfileState where
  name : Option Val
  email : Option Val
  bio : Option SDVal
  age : Option SDVal
  name_complete : Bool
  email_complete : Bool
  bio_complete : Bool
  age_complete : Bool
  scheduled_trigger_count : ℕ
deriving DecidableEq, Repr

/-- The dataclass defaults: everything None/incomplete, nothing scheduled. -/
def UserProfileState.init : UserProfileState :=
  ⟨none, none, none, none, false, false, false, false, 0⟩

/-- `UserProfileState.has_required_fields`: name and email completed and set. -/
def has_required_fields (s : UserProfileState) : Bool :=
  s.name_complete && s.email_complete && s.name.isSome && s.email.isSome

/-- Tail of `UserProfileState.update_field`: after storing the field, schedule
the ready-for-next-job callback when the required fields are now complete. -/
def fire_check (s : UserProfileState) : UserProfileState :=
  if has_required_fields s then
    { s with scheduled_trigger_count := s.scheduled_trigger_count + 1 }
  else s

/-- `update_field("name", v, is_complete)`. -/
def update_name (s : UserProfileState) (v : Val) (is_complete : Bool) : UserProfileState :=
  fire_check { s with name := some v, name_complete := is_complete }

/-- `update_field("email", v, is_complete)`. -/
def update_email (s : UserProfileState) (v : Val) (is_complete : Bool) : UserProfileState :=
  fire_check { s with email := some v, email_complete := is_complete }

/-- `update_field("bio", v, is_complete)`. -/
def update_bio (s : UserProfileState) (v : SDVal) (is_complete : Bool) : UserProfileState :=
  fire_check { s with bio := some v, bio_complete := is_complete }

/-- `update_field("age", v, is_complete)`. -/
def update_age (s : UserProfileState) (v : SDVal) (is_complete : Bool) : UserProfileState :=
  fire_check { s with age := some v, age_complete := is_complete }

/-- `name` block of `_process_partial_response`: complete on presence
(`@stream.done` field). -/
def sd_name_block (p : SDUpdate) (s : UserProfileState) : UserProfileState :=
  match p.name with
  | some n => update_name s (.str n) true
  | none => s

/-- `email` block of `_process_partial_response`: complete on presence. -/
def sd_email_block (p : SDUpdate) (s : UserProfileState) : UserProfileState :=
  match p.email with
  | some e => update_email s (.str e) true
  | none => s

/-- `bio` block of `_process_partial_response`: a StreamState keeps its state,
a plain value is wrapped as a Complete StreamState; a `None` bio is skipped. -/
def sd_bio_block (p : SDUpdate) (s : UserProfileState) : UserProfileState :=
  match p.bio with
  | some (SDVal.withState st v) => update_bio s (SDVal.withState st v) (st == "Complete")
  | some (SDVal.plain v) => update_bio s (SDVal.withState "Complete" (some v)) true
  | none => s

/-- `age` block of `_process_partial_response`: like bio, except that an age
attribute that is `None` records a Pending StreamState (the `elif` branch). -/
def sd_age_block (p : SDUpdate) (s : UserProfileState) : UserProfileState :=
  match p.age with
  | some (SDVal.withState st v) => update_age s (SDVal.withState st v) (st == "Complete")
  | some (SDVal.plain v) => update_age s (SDVal.withState "Complete" (some v)) true
  | none => update_age s (SDVal.withState "Pending" none) false

/-- `StreamingProcessor._process_partial_response`: the four field blocks in
source order. -/
def process_partial_response (s : UserProfileState) (p : SDUpdate) : UserProfileState :=
  sd_age_block p (sd_bio_block p (sd_email_block p (sd_name_block p s)))

/-- `name` block of `_process_final_response` (`if final.name:`). -/
def sd_final_name_block (final : SDFinal) (s : UserProfileState) : UserProfileState :=
  match final.name with
  | some v => if v.truthy then update_name s v true else s
  | none => s

/-- `email` block of `_process_final_response`. -/
def sd_final_email_block (final : SDFinal) (s : UserProfileState) : UserProfileState :=
  match final.email with
  | some v => if v.truthy then update_email s v true else s
  | none => s

/-- `bio` block of `_process_final_response`: wrapped as Complete StreamState. -/
def sd_final_bio_block (final : SDFinal) (s : UserProfileState) : UserProfileState :=
  match final.bio with
  | some v => if v.truthy then update_bio s (SDVal.withState "Complete" (some v)) true else s
  | none => s

/-- `age` block of `_process_final_response`: wrapped as Complete StreamState. -/
def sd_final_age_block (final : SDFinal) (s : UserProfileState) : UserProfileState :=
  match final.age with
  | some v => if v.truthy then update_age s (SDVal.withState "Complete" (some v)) true else s
  | none => s

/-- `StreamingProcessor._process_final_response`: every truthy field of the
final record is re-ingested through `update_field` as complete — the implicit
last ingest. -/
def process_final_response (s : UserProfileState) (final : SDFinal) : UserProfileState :=
  sd_final_age_block final
    (sd_final_bio_block final (sd_final_email_block final (sd_final_name_block final s)))

lemma has_required_fields_fire_check (s : UserProfileState) :
    has_required_fields (fire_check s) = has_required_fields s := by
  unfold fire_check
  split
  · rfl
  · rfl

lemma count_fire_check_ge (s : UserProfileState) :
    s.scheduled_trigger_count ≤ (fire_check s).scheduled_trigger_count := by
  unfold fire_check
  split
  · exact Nat.le_succ _
  · exact Nat.le_refl _

lemma count_fire_check_of_not_ready (s : UserProfileState)
    (h : has_required_fields s = false) :
    (fire_check s).scheduled_trigger_count = s.scheduled_trigger_count := by
  simp [fire_check, h]

lemma count_fire_check_of_ready (s : UserProfileState)
    (h : has_required_fields s = true) :
    (fire_check s).scheduled_trigger_count = s.scheduled_trigger_count + 1 := by
  simp [fire_check, h]

lemma has_required_fields_update_bio (s : UserProfileState) (v : SDVal) (b : Bool) :
    has_required_fields (update_bio s v b) = has_required_fields s := by
  rw [update_bio, has_required_fields_fire_check]
  rfl

lemma has_required_fields_update_age (s : UserProfileState) (v : SDVal) (b : Bool) :
    has_required_fields (update_age s v b) = has_required_fields s := by
  rw [update_age, has_required_fields_fire_check]
  rfl

lemma count_update_bio_ge (s : UserProfileState) (v : SDVal) (b : Bool) :
    s.scheduled_trigger_count ≤ (update_bio s v b).scheduled_trigger_count :=
  count_fire_check_ge { s with bio := some v, bio_complete := b }

lemma count_update_age_ge (s : UserProfileState) (v : SDVal) (b : Bool) :
    s.scheduled_trigger_count ≤ (update_age s v b).scheduled_trigger_count :=
  count_fire_check_ge { s with age := some v, age_complete := b }

lemma has_required_fields_update_name_true (s : UserProfileState) (v : Val) :
    has_required_fields (update_name s v true) = (s.email_complete && s.email.isSome) := by
  rw [update_name, has_required_fields_fire_check]
  simp [has_required_fields]

lemma has_required_fields_update_email_true (s : UserProfileState) (v : Val) :
    has_required_fields (update_email s v true) = (s.name_complete && s.name.isSome) := by
  rw [update_email, has_required_fields_fire_check]
  simp [has_required_fields]

lemma fire_check_name (s : UserProfileState) : (fire_check s).name = s.name := by
  unfold fire_check
  split
  · rfl
  · rfl

lemma fire_check_name_complete (s : UserProfileState) :
    (fire_check s).name_complete = s.name_complete := by
  unfold fire_check
  split
  · rfl
  · rfl

lemma step_not_ready_name (s : UserProfileState) (v : Val)
    (h : has_required_fields (update_name s v true) = false) :
    has_required_fields s = false ∧
    (update_name s v true).scheduled_trigger_count = s.scheduled_trigger_count := by
  have hcount : (update_name s v true).scheduled_trigger_count = s.scheduled_trigger_count := by
    have hs : has_required_fields { s with name := some v, name_complete := true } = false := by
      rw [← has_required_fields_fire_check]
      exact h
    exact count_fire_check_of_not_ready _ hs
  refine ⟨?_, hcount⟩
  rw [has_required_fields_update_name_true] at h
  unfold has_required_fields
  cases hec : s.email_complete <;> simp_all

lemma step_not_ready_email (s : UserProfileState) (v : Val)
    (h : has_required_fields (update_email s v true) = false) :
    has_required_fields s = false ∧
    (update_email s v true).scheduled_trigger_count = s.scheduled_trigger_count := by
  have hcount : (update_email s v true).scheduled_trigger_count = s.scheduled_trigger_count := by
    have hs : has_required_fields { s with email := some v, email_complete := true } = false := by
      rw [← has_required_fields_fire_check]
      exact h
    exact count_fire_check_of_not_ready _ hs
  refine ⟨?_, hcount⟩
  rw [has_required_fields_update_email_true] at h
  unfold has_required_fields
  cases hnc : s.name_complete <;> simp_all

lemma step_not_ready_bio (s : UserProfileState) (v : SDVal) (b : Bool)
    (h : has_required_fields (update_bio s v b) = false) :
    has_required_fields s = false ∧
    (update_bio s v b).scheduled_trigger_count = s.scheduled_trigger_count := by
  have hr : has_required_fields s = false := by
    rw [has_required_fields_update_bio] at h
    exact h
  refine ⟨hr, ?_⟩
  have hs : has_required_fields { s with bio := some v, bio_complete := b } = false := by
    rw [← has_required_fields_fire_check]
    exact h
  exact count_fire_check_of_not_ready _ hs

lemma step_not_ready_age (s : UserProfileState) (v : SDVal) (b : Bool)
    (h : has_required_fields (update_age s v b) = false) :
    has_required_fields s = false ∧
    (update_age s v b).scheduled_trigger_count = s.scheduled_trigger_count := by
  have hr : has_required_fields s = false := by
    rw [has_required_fields_update_age] at h
    exact h
  refine ⟨hr, ?_⟩
  have hs : has_required_fields { s with age := some v, age_complete := b } = false := by
    rw [← has_required_fields_fire_check]
    exact h
  exact count_fire_check_of_not_ready _ hs

lemma sd_name_block_not_ready (p : SDUpdate) (s : UserProfileState)
    (h : has_required_fields (sd_name_block p s) = false) :
    has_required_fields s = false ∧
    (sd_name_block p s).scheduled_trigger_count = s.scheduled_trigger_count := by
  unfold sd_name_block at h ⊢
  cases hn : p.name with
  | none =>
    rw [hn] at h
    exact ⟨h, rfl⟩
  | some n =>
    rw [hn] at h
    exact step_not_ready_name s (.str n) h

lemma sd_email_block_not_ready (p : SDUpdate) (s : UserProfileState)
    (h : has_required_fields (sd_email_block p s) = false) :
    has_required_fields s = false ∧
    (sd_email_block p s).scheduled_trigger_count = s.scheduled_trigger_count := by
  unfold sd_email_block at h ⊢
  cases he : p.email with
  | none =>
    rw [he] at h
    exact ⟨h, rfl⟩
  | some e =>
    rw [he] at h
    exact step_not_ready_email s (.str e) h

lemma sd_bio_block_not_ready (p : SDUpdate) (s : UserProfileState)
    (h : has_required_fields (sd_bio_block p s) = false) :
    has_required_fields s = false ∧
    (sd_bio_block p s).scheduled_trigger_count = s.scheduled_trigger_count := by
  unfold sd_bio_block at h ⊢
  cases hb : p.bio with
  | none =>
    rw [hb] at h
    exact ⟨h, rfl⟩
  | some v =>
    rw [hb] at h
    cases v with
    | withState st w => exact step_not_ready_bio s _ _ h
    | plain w => exact step_not_ready_bio s _ _ h

lemma sd_age_block_not_ready (p : SDUpdate) (s : UserProfileState)
    (h : has_required_fields (sd_age_block p s) = false) :
    has_required_fields s = false ∧
    (sd_age_block p s).scheduled_trigger_count = s.scheduled_trigger_count := by
  unfold sd_age_block at h ⊢
  cases ha : p.age with
  | none =>
    rw [ha] at h
    exact step_not_ready_age s _ _ h
  | some v =>
    rw [ha] at h
    cases v with
    | withState st w => exact step_not_ready_age s _ _ h
    | plain w => exact step_not_ready_age s _ _ h

lemma process_partial_not_ready (s : UserProfileState) (p : SDUpdate)
    (h : has_required_fields (process_partial_response s p) = false) :
    has_required_fields s = false ∧
    (process_partial_response s p).scheduled_trigger_count = s.scheduled_trigger_count := by
  unfold process_partial_response at h ⊢
  obtain ⟨h3, e3⟩ := sd_age_block_not_ready p _ h
  obtain ⟨h2, e2⟩ := sd_bio_block_not_ready p _ h3
  obtain ⟨h1, e1⟩ := sd_email_block_not_ready p _ h2
  obtain ⟨h0, e0⟩ := sd_name_block_not_ready p _ h1
  exact ⟨h0, e3.trans (e2.trans (e1.trans e0))⟩

lemma fold_partial_not_ready (ps : List SDUpdate) (s : UserProfileState)
    (h : has_required_fields (ps.foldl process_partial_response s) = false) :
    has_required_fields s = false ∧
    (ps.foldl process_partial_response s).scheduled_trigger_count =
      s.scheduled_trigger_count := by
  induction ps generalizing s with
  | nil => exact ⟨h, rfl⟩
  | cons p rest ih =>
    simp only [List.foldl_cons] at h ⊢
    obtain ⟨h1, e1⟩ := ih (process_partial_response s p) h
    obtain ⟨h0, e0⟩ := process_partial_not_ready s p h1
    exact ⟨h0, e1.trans e0⟩

lemma sd_final_bio_block_preserves (final : SDFinal) (s : UserProfileState) :
    has_required_fields (sd_final_bio_block final s) = has_required_fields s ∧
    s.scheduled_trigger_count ≤ (sd_final_bio_block final s).scheduled_trigger_count := by
  unfold sd_final_bio_block
  cases final.bio with
  | none => exact ⟨rfl, Nat.le_refl _⟩
  | some v =>
    by_cases hv : v.truthy
    · simp only [hv, if_true]
      exact ⟨has_required_fields_update_bio _ _ _, count_update_bio_ge _ _ _⟩
    · simp only [hv, if_false]
      exact ⟨rfl, Nat.le_refl _⟩

lemma sd_final_age_block_preserves (final : SDFinal) (s : UserProfileState) :
    has_required_fields (sd_final_age_block final s) = has_required_fields s ∧
    s.scheduled_trigger_count ≤ (sd_final_age_block final s).scheduled_trigger_count := by
  unfold sd_final_age_block
  cases final.age with
  | none => exact ⟨rfl, Nat.le_refl _⟩
  | some v =>
    by_cases hv : v.truthy
    · simp only [hv, if_true]
      exact ⟨has_required_fields_update_age _ _ _, count_update_age_ge _ _ _⟩
    · simp only [hv, if_false]
      exact ⟨rfl, Nat.le_refl _⟩

/-- C2 amended: the summary of `BAMLStreamProcessor.process_stream` is entirely
independent of the terminal record — no condition is re-evaluated against it, so
a condition first satisfied only there never fires (see the counterexample).
`StreamingProcessor._process_final_response` of `src/streaming_demo.py`, by
contrast, does treat the final record as an implicit last ingest: if the
required fields were never complete during the streamed updates (so no
next-job callback was scheduled earlier), a final record with truthy name and
email makes the state required-ready and schedules the callback at finalize
time. -/
theorem C2_finalize_amended (model_fields : List (String × Bool)) (hr ha : Handler)
    (snaps : List (String → Option Val)) (t1 t2 : String → Option Val)
    (ps : List SDUpdate) (final : SDFinal) (nm em : Val)
    (hnotready : has_required_fields
      (ps.foldl process_partial_response UserProfileState.init) = false)
    (hname : final.name = some nm) (hnm : nm.truthy = true)
    (hemail : final.email = some em) (hem : em.truthy = true) :
    bamlProcessStream model_fields hr ha snaps t1 =
      bamlProcessStream model_fields hr ha snaps t2 ∧
    (ps.foldl process_partial_response UserProfileState.init).scheduled_trigger_count = 0 ∧
    has_required_fields
      (process_final_response (ps.foldl process_partial_response UserProfileState.init)
        final) = true ∧
    1 ≤ (process_final_response (ps.foldl process_partial_response UserProfileState.init)
          final).scheduled_trigger_count := by
  have hcount0 : (ps.foldl process_partial_response
      UserProfileState.init).scheduled_trigger_count = 0 :=
    (fold_partial_not_ready ps UserProfileState.init hnotready).2
  refine ⟨rfl, hcount0, ?_⟩
  set s0 := ps.foldl process_partial_response UserProfileState.init with hs0
  have hn : sd_final_name_block final s0 = update_name s0 nm true := by
    unfold sd_final_name_block
    rw [hname]
    simp [hnm]
  have hknownc : (update_name s0 nm true).name_complete = true := by
    rw [update_name, fire_check_name_complete]
  have hknown : (update_name s0 nm true).name = some nm := by
    rw [update_name, fire_check_name]
  have he : sd_final_email_block final (update_name s0 nm true) =
      update_email (update_name s0 nm true) em true := by
    unfold sd_final_email_block
    rw [hemail]
    simp [hem]
  have hready2 : has_required_fields
      (update_email (update_name s0 nm true) em true) = true := by
    rw [has_required_fields_update_email_true, hknownc, hknown]
    rfl
  have hcount2 : 1 ≤ (update_email (update_name s0 nm true) em true).scheduled_trigger_count := by
    have hs' : has_required_fields
        { update_name s0 nm true with email := some em, email_complete := true } = true := by
      rw [← has_required_fields_fire_check]
      exact hready2
    rw [update_email, count_fire_check_of_ready _ hs']
    exact Nat.le_add_left 1 _
  obtain ⟨hb1, hb2⟩ := sd_final_bio_block_preserves final
    (update_email (update_name s0 nm true) em true)
  obtain ⟨hg1, hg2⟩ := sd_final_age_block_preserves final
    (sd_final_bio_block final (update_email (update_name s0 nm true) em true))
  constructor
  · unfold process_final_response
    rw [hn, he, hg1, hb1]
    exact hready2
  · unfold process_final_response
    rw [hn, he]
    exact le_trans hcount2 (le_trans hb2 hg2)

/-- Witness for the C2 amended theorem: one streamed update carrying only the
name, then a final record with name, email and age. -/
theorem C2_finalize_amended_witness :
    1 ≤ (process_final_response
      ([{ name := some "Alice", email := none, bio := none, age := none }].foldl
        process_partial_response UserProfileState.init)
      { name := some (.str "Alice"), email := some (.str "alice@mail.com"),
        bio := none, age := some (.int 28) }).scheduled_trigger_count :=
  (C2_finalize_amended [] (fun _ _ => Except.ok ()) (fun _ _ => Except.ok ()) []
    (fun _ => none) (fun _ => none)
    [{ name := some "Alice", email := none, bio := none, age := none }]
    { name := some (.str "Alice"), email := some (.str "alice@mail.com"),
      bio := none, age := some (.int 28) }
    (.str "Alice") (.str "alice@mail.com")
    (by decide) rfl (by decide) rfl (by decide)).2.2.2

/-- A field of the streamed `UserProfile` of `fast_transition_processor.py`:
`getattr(profile, name, None)` yields None, a StreamState-like object carrying
a `.state` string and a `.value`, or a plain value. -/
inductive FTField
  | absent
  | withState (state : String) (value : Option Val)
  | plain (v : Val)
deriving DecidableEq, Repr

/-- The six fields `FastTransitionProcessor` tracks. -/
structure FTProfile where
  name : FTField
  email : FTField
  is_verified : FTField
  bio : FTField
  age : FTField
  is_premium : FTField
deriving DecidableEq, Repr

/-- The per-field test shared by `_check_required_fields_complete` and
`_check_all_fields_complete`: a missing field fails, a StreamState must read
"Complete", a plain value passes (the `else: pass` branch). -/
def ftFieldComplete : FTField → Bool
  | .absent => false
  | .withState st _ => st == "Complete"
  | .plain _ => true

/-- `getattr(profile, field_name, None)` over the six tracked fields. -/
def ftGet (p : FTProfile) (n : String) : FTField :=
  if n == "name" then p.name
  else if n == "email" then p.email
  else if n == "is_verified" then p.is_verified
  else if n == "bio" then p.bio
  else if n == "age" then p.age
  else if n == "is_premium" then p.is_premium
  else .absent

/-- `FastTransitionProcessor._check_required_fields_complete`. -/
def check_required_fields_complete (p : FTProfile) : Bool :=
  ["name", "email", "is_verified"].all fun fn => ftFieldComplete (ftGet p fn)

/-- `FastTransitionProcessor._check_all_fields_complete`. -/
def check_all_fields_complete (p : FTProfile) : Bool :=
  ["name", "email", "is_verified", "bio", "age", "is_premium"].all fun fn =>
    ftFieldComplete (ftGet p fn)

/-- `.value if hasattr(x, "value") else x` clean-value extraction at dispatch. -/
def ftCleanValue : FTField → Option Val
  | .absent => none
  | .withState _ v => v
  | .plain v => some v

/-- Loop state of `FastTransitionProcessor.process_stream`: the
has-triggered latch, the fast-transition jobs started with
`asyncio.create_task` (recorded by the loop, never executed or awaited in it),
the all-fields-ready latch, and the update counter. -/
structure FTState where
  has_triggered_fast_transition : Bool
  scheduled_jobs : List (Option Val × Option Val × Option Val)
  all_fields_ready : Bool
  update_count : ℕ
deriving DecidableEq, Repr

/-- One iteration of the `async for` loop of
`FastTransitionProcessor.process_stream` (lines 107-143): count the update; if
not yet triggered and the required fields are complete, latch and schedule the
next job fire-and-forget; if all fields are complete, latch the
all-fields-ready time. -/
def ftStep (st : FTState) (p : FTProfile) : FTState :=
  let st1 := { st with update_count := st.update_count + 1 }
  let st2 :=
    if st1.has_triggered_fast_transition then st1
    else if check_required_fields_complete p then
      { st1 with has_triggered_fast_transition := true,
                 scheduled_jobs := st1.scheduled_jobs ++
                   [(ftCleanValue p.name, ftCleanValue p.email, ftCleanValue p.is_verified)] }
    else st1
  if check_all_fields_complete p then
    if st2.all_fields_ready then st2 else { st2 with all_fields_ready := true }
  else st2

/-- `FastTransitionProcessor.process_stream` restricted to its loop. -/
def ftProcess (snaps : List FTProfile) : FTState :=
  snaps.foldl ftStep ⟨false, [], false, 0⟩

lemma ftStep_count (st : FTState) (p : FTProfile) :
    (ftStep st p).update_count = st.update_count + 1 := by
  unfold ftStep
  by_cases h1 : st.has_triggered_fast_transition <;>
    by_cases h2 : check_required_fields_complete p <;>
    by_cases h3 : check_all_fields_complete p <;>
    by_cases h4 : st.all_fields_ready <;>
    simp [h1, h2, h3, h4]

lemma ftStep_jobs (st : FTState) (p : FTProfile) :
    ((ftStep st p).has_triggered_fast_transition = st.has_triggered_fast_transition ∧
      (ftStep st p).scheduled_jobs = st.scheduled_jobs) ∨
    (st.has_triggered_fast_transition = false ∧
      (ftStep st p).has_triggered_fast_transition = true ∧
      (ftStep st p).scheduled_jobs = st.scheduled_jobs ++
        [(ftCleanValue p.name, ftCleanValue p.email, ftCleanValue p.is_verified)]) := by
  unfold ftStep
  by_cases h1 : st.has_triggered_fast_transition <;>
    by_cases h2 : check_required_fields_complete p <;>
    by_cases h3 : check_all_fields_complete p <;>
    by_cases h4 : st.all_fields_ready <;>
    simp [h1, h2, h3, h4]

lemma ftFold_count (snaps : List FTProfile) (st : FTState) :
    (snaps.foldl ftStep st).update_count = st.update_count + snaps.length := by
  induction snaps generalizing st with
  | nil => rfl
  | cons p rest ih =>
    simp only [List.foldl_cons, List.length_cons]
    rw [ih (ftStep st p), ftStep_count]
    omega

lemma ftFold_jobs (snaps : List FTProfile) (st : FTState)
    (hempty : st.has_triggered_fast_transition = false → st.scheduled_jobs = [])
    (hlen : st.scheduled_jobs.length ≤ 1) :
    (snaps.foldl ftStep st).scheduled_jobs.length ≤ 1 := by
  induction snaps generalizing st with
  | nil => exact hlen
  | cons p rest ih =>
    simp only [List.foldl_cons]
    rcases ftStep_jobs st p with ⟨hflag, hjobs⟩ | ⟨hoff, hflag, hjobs⟩
    · exact ih (ftStep st p) (fun hf => by rw [hjobs]; exact hempty (hflag ▸ hf))
        (by rw [hjobs]; exact hlen)
    · refine ih (ftStep st p) (fun hf => by rw [hf] at hflag; cases hflag) ?_
      rw [hjobs, hempty hoff]
      simp

/-- C3 amended: `FastTransitionProcessor` dispatches its fast-transition job
with `asyncio.create_task` and never awaits it inside the loop, so for every
stream the loop consumes all snapshots — its progress cannot depend on the
scheduled job, which is returned still pending, and at most one job is ever
scheduled. `BAMLStreamProcessor.process_stream`, by contrast, awaits its
handlers inline, and a raising handler aborts stream consumption (see the C3
counterexample). -/
theorem C3_fire_and_forget_amended (snaps : List FTProfile) :
    (ftProcess snaps).update_count = snaps.length ∧
    (ftProcess snaps).scheduled_jobs.length ≤ 1 := by
  constructor
  · rw [ftProcess, ftFold_count]
    exact Nat.zero_add _
  · exact ftFold_jobs snaps ⟨false, [], false, 0⟩ (fun _ => rfl) (by simp)

end BamlStreaming
